import Mathlib

/-!
Shallow embedding of the daily-tweet pipeline from
`src/scripts/daily_tweet.py`, together with proofs of the spec claims.

Python strings are modelled as Lean `String` (length = number of code
points, matching Python `len`).  Byte strings are `List Nat` with each
entry below 256.  External collaborators (news lookup, image search,
image rendering backend, posting network calls, the environment) are
parameters of the embedded functions, so theorems quantify over them.
-/

/-! ### Python string helpers -/

/-- ASCII whitespace characters recognised by Python `str.split` /
`str.strip` (the inputs in this program are ASCII). -/
def isPySpace (c : Char) : Bool :=
  c = ' ' || c = '\t' || c = '\n' || c = '\x0d' || c = '\x0b' || c = '\x0c'

/-- Python `str.lstrip()` on a character list. -/
def lstripChars (cs : List Char) : List Char := cs.dropWhile isPySpace

/-- Python `str.rstrip()` on a character list. -/
def rstripChars (cs : List Char) : List Char :=
  (cs.reverse.dropWhile isPySpace).reverse

/-- Python `str.strip()` on a character list. -/
def stripChars (cs : List Char) : List Char := rstripChars (lstripChars cs)

/-- Python `str.strip()`. -/
def pystrip (s : String) : String := ⟨stripChars s.data⟩

/-- One step of the right fold grouping characters into
whitespace-separated runs: a whitespace character opens a new (empty)
group, any other character is prepended to the current head group. -/
def splitStep (c : Char) (acc : List (List Char)) : List (List Char) :=
  if isPySpace c then [] :: acc
  else
    match acc with
    | [] => [[c]]
    | w :: rest => (c :: w) :: rest

/-- Python `str.split()` (split on runs of whitespace, dropping empty
pieces), on character lists. -/
def splitWs (cs : List Char) : List (List Char) :=
  (cs.foldr splitStep []).filter (fun w => ¬ w.isEmpty)

/-- Python `" ".join(words)` on character lists. -/
def joinSp : List (List Char) → List Char
  | [] => []
  | [w] => w
  | w :: v :: rest => w ++ ' ' :: joinSp (v :: rest)

/-! ### SHA-256 (hashlib.sha256), over byte lists -/

/-- 32-bit rotate right. -/
def rotr32 (n x : Nat) : Nat := ((x >>> n) ||| (x <<< (32 - n))) % 2 ^ 32

/-- The 64 SHA-256 round constants (decimal). -/
def sha256K : List Nat :=
  [1116352408, 1899447441, 3049323471, 3921009573, 961987163,
   1508970993, 2453635748, 2870763221, 3624381080, 310598401,
   607225278, 1426881987, 1925078388, 2162078206, 2614888103,
   3248222580, 3835390401, 4022224774, 264347078, 604807628,
   770255983, 1249150122, 1555081692, 1996064986, 2554220882,
   2821834349, 2952996808, 3210313671, 3336571891, 3584528711,
   113926993, 338241895, 666307205, 773529912, 1294757372,
   1396182291, 1695183700, 1986661051, 2177026350, 2456956037,
   2730485921, 2820302411, 3259730800, 3345764771, 3516065817,
   3600352804, 4094571909, 275423344, 430227734, 506948616,
   659060556, 883997877, 958139571, 1322822218, 1537002063,
   1747873779, 1955562222, 2024104815, 2227730452, 2361852424,
   2428436474, 2756734187, 3204031479, 3329325298]

/-- The 8 initial SHA-256 hash words (decimal). -/
def sha256H0 : List Nat :=
  [1779033703, 3144134277, 1013904242,
   2773480762, 1359893119, 2600822924,
   528734635, 1541459225]

/-- Big-endian bytes of `val`, `n` bytes wide. -/
def natToBytesBE (n val : Nat) : List Nat :=
  (List.range n).map (fun i => (val >>> (8 * (n - 1 - i))) % 256)

/-- Value of a big-endian byte list (used for the first 8 digest bytes,
matching `int.from_bytes(digest[:8], byteorder="big")`). -/
def bytesToNatBE (bs : List Nat) : Nat :=
  bs.foldl (fun acc b => acc * 256 + b) 0

/-- SHA-256 message padding. -/
def sha256Pad (msg : List Nat) : List Nat :=
  let padLen := (64 - (msg.length + 9) % 64) % 64
  msg ++ [0x80] ++ List.replicate padLen 0 ++ natToBytesBE 8 (msg.length * 8)

/-- First 16 message-schedule words (big-endian) of a 64-byte block. -/
def blockWords (block : List Nat) : List Nat :=
  (List.range 16).map (fun i =>
    (block.getD (4 * i) 0) * 2 ^ 24 + (block.getD (4 * i + 1) 0) * 2 ^ 16 +
      (block.getD (4 * i + 2) 0) * 2 ^ 8 + block.getD (4 * i + 3) 0)

/-- Extend 16 schedule words to 64. -/
def sha256Schedule (ws : List Nat) : List Nat :=
  (List.range 48).foldl
    (fun w _ =>
      let t := w.length
      let s0 :=
        rotr32 7 (w.getD (t - 15) 0) ^^^ rotr32 18 (w.getD (t - 15) 0) ^^^
          (w.getD (t - 15) 0) >>> 3
      let s1 :=
        rotr32 17 (w.getD (t - 2) 0) ^^^ rotr32 19 (w.getD (t - 2) 0) ^^^
          (w.getD (t - 2) 0) >>> 10
      w ++ [(w.getD (t - 16) 0 + s0 + w.getD (t - 7) 0 + s1) % 2 ^ 32])
    ws

/-- One compression round. -/
def sha256Round (st : Nat × Nat × Nat × Nat × Nat × Nat × Nat × Nat)
    (kw : Nat × Nat) : Nat × Nat × Nat × Nat × Nat × Nat × Nat × Nat :=
  let (a, b, c, d, e, f, g, h) := st
  let S1 := rotr32 6 e ^^^ rotr32 11 e ^^^ rotr32 25 e
  let ch := (e &&& f) ^^^ ((2 ^ 32 - 1 - e) &&& g)
  let t1 := (h + S1 + ch + kw.1 + kw.2) % 2 ^ 32
  let S0 := rotr32 2 a ^^^ rotr32 13 a ^^^ rotr32 22 a
  let mj := (a &&& b) ^^^ (a &&& c) ^^^ (b &&& c)
  let t2 := (S0 + mj) % 2 ^ 32
  ((t1 + t2) % 2 ^ 32, a, b, c, (d + t1) % 2 ^ 32, e, f, g)

/-- Compress one 64-byte block into the running hash state. -/
def sha256Compress (hs : List Nat) (block : List Nat) : List Nat :=
  let w := sha256Schedule (blockWords block)
  let init : Nat × Nat × Nat × Nat × Nat × Nat × Nat × Nat :=
    (hs.getD 0 0, hs.getD 1 0, hs.getD 2 0, hs.getD 3 0,
     hs.getD 4 0, hs.getD 5 0, hs.getD 6 0, hs.getD 7 0)
  let (a, b, c, d, e, f, g, h) := (sha256K.zip w).foldl sha256Round init
  [(hs.getD 0 0 + a) % 2 ^ 32, (hs.getD 1 0 + b) % 2 ^ 32,
   (hs.getD 2 0 + c) % 2 ^ 32, (hs.getD 3 0 + d) % 2 ^ 32,
   (hs.getD 4 0 + e) % 2 ^ 32, (hs.getD 5 0 + f) % 2 ^ 32,
   (hs.getD 6 0 + g) % 2 ^ 32, (hs.getD 7 0 + h) % 2 ^ 32]

/-- Split a byte list into 64-byte blocks (fuel-structured so that the
kernel can evaluate it; the fuel is always sufficient since each step
consumes at least one element). -/
def toBlocksFuel : Nat → List Nat → List (List Nat)
  | 0, _ => []
  | _ + 1, [] => []
  | n + 1, l@(_ :: _) => l.take 64 :: toBlocksFuel n (l.drop 64)

/-- Split a byte list into 64-byte blocks. -/
def toBlocks (l : List Nat) : List (List Nat) := toBlocksFuel l.length l

/-- SHA-256 digest (32 bytes) of a byte list. -/
def sha256 (msg : List Nat) : List Nat :=
  ((toBlocks (sha256Pad msg)).foldl sha256Compress sha256H0).flatMap
    (natToBytesBE 4)

/-! ### Dates and `deterministic_index` -/

/-- A Python `datetime.date` (year, month, day). -/
structure PyDate where
  year : Nat
  month : Nat
  day : Nat
deriving DecidableEq, Repr

/-- Decimal digits of `n`, padded to width `w` (as Python `%04d`). -/
def padNum (w n : Nat) : String :=
  let s := toString n
  ⟨List.replicate (w - s.length) '0' ++ s.data⟩

/-- Python `date.isoformat()`: `YYYY-MM-DD`. -/
def isoformat (d : PyDate) : String :=
  padNum 4 d.year ++ "-" ++ padNum 2 d.month ++ "-" ++ padNum 2 d.day

/-- UTF-8 bytes of an ASCII string (ISO dates are ASCII). -/
def utf8Bytes (s : String) : List Nat := s.data.map Char.toNat

/-- `deterministic_index(total, date)` from `daily_tweet.py`: SHA-256 of
the ISO date string, first 8 bytes big-endian, modulo `total`; `0` when
`total <= 0`. -/
def deterministic_index (total : Int) (date : PyDate) : Int :=
  if total ≤ 0 then 0
  else
    let digest := sha256 (utf8Bytes (isoformat date))
    let value : Nat := bytesToNatBE (digest.take 8)
    (value : Int) % total

/-! ### Tip list loading and selection -/

/-- `get_default_tips()` from `daily_tweet.py`. -/
def get_default_tips : List String :=
  ["Write clear, descriptive variable and function names. Readers > cleverness.",
   "Prefer small, focused functions. One responsibility per function.",
   "Fail fast: validate inputs early and return on error conditions.",
   "Write tests for edge cases first. They define behavior.",
   "Avoid premature optimization. Make it work, then make it fast.",
   "Use version control branches for each change; keep commits atomic.",
   "Document non-obvious decisions in code comments or ADRs.",
   "Log context, not noise. Include identifiers that help debugging.",
   "Handle errors explicitly. Never swallow exceptions silently.",
   "Prefer composition over inheritance to reduce coupling.",
   "Keep dependencies up to date; pin versions for reproducibility.",
   "Automate formatting and linting to keep diffs clean.",
   "Make data structures immutable unless mutation is required.",
   "Name booleans with positive intent (isEnabled, hasAccess).",
   "Review diffs before pushing; consider readability and design.",
   "Prefer pure functions; minimize shared state.",
   "Use feature flags to roll out risky changes safely.",
   "Add metrics around hot paths; measure before optimizing.",
   "Design APIs for ergonomics and clear failure modes.",
   "Write idempotent jobs so retries are safe.",
   "Paginate APIs; never assume small datasets.",
   "Cache wisely: define TTLs and invalidation strategies.",
   "Validate user input on both client and server.",
   "Avoid magic numbers; extract constants with names.",
   "Prefer UTC for timestamps and store ISO 8601 strings.",
   "Separate config from code; use environment variables.",
   "Keep functions under ~20-30 lines for readability.",
   "Write meaningful commit messages: what and why.",
   "Use guards to reduce nesting and improve clarity.",
   "Prefer explicit over implicit; be obvious in code.",
   "Add type hints where they add clarity and safety.",
   "Binary search your bugs: bisect changes to find regressions.",
   "Use code reviews to learn and teach, not just to approve.",
   "Write integration tests for critical flows end-to-end.",
   "Avoid global mutable state; pass context explicitly.",
   "Structure modules by domain, not by technical layers only.",
   "Monitor error budgets and prioritize reliability work.",
   "Prefer dependency injection over hard-coded singletons.",
   "Make CLI tools idempotent and scriptable (exit codes, flags).",
   "Document APIs with examples; tests can serve as docs."]

/-- Python `tip.startswith("#")`: whether the first character is `#`. -/
def startsWithHash (t : String) : Bool :=
  match t.data with
  | [] => false
  | c :: _ => c = '#'

/-- `read_tips_from_file`: the file is modelled as its list of lines
(`none` when the file does not exist).  Lines are stripped; blank lines
and lines starting with `#` are dropped. -/
def read_tips_from_file (fileLines : Option (List String)) : List String :=
  match fileLines with
  | none => []
  | some ls =>
      (ls.map pystrip).filter (fun t => ¬ t = "" ∧ ¬ startsWithHash t = true)

/-- The tip list actually used: the file contents, or the defaults when
the file is absent or yields no tips (`if not tips: tips = get_default_tips()`). -/
def effective_tips (fileLines : Option (List String)) : List String :=
  let tips := read_tips_from_file fileLines
  if tips = [] then get_default_tips else tips

/-- The index computed by `deterministic_index(len(tips))` for today. -/
def tip_index (fileLines : Option (List String)) (today : PyDate) : Int :=
  deterministic_index ((effective_tips fileLines).length : Int) today

/-- `tips[idx]`: Python list indexing, which raises when out of range,
is modelled with `List.get?`. -/
def selected_tip (fileLines : Option (List String)) (today : PyDate) :
    Option String :=
  (effective_tips fileLines).get? (tip_index fileLines today).toNat

/-! ### Tweet text construction -/

/-- The fixed hashtag decoration of tip posts. -/
def tipHashtags : String := "\n\n#coding #programming #devtips"

/-- `build_tweet_text(tip)`: reserve the decoration, truncate the tip to
248 characters (280 - 31 - 1) with trailing whitespace trimmed plus an
ellipsis when it exceeds 249. -/
def build_tweet_text (tip : String) : String :=
  let max_len : Nat := 280
  let allowed_tip_len : Nat := max_len - tipHashtags.length
  let tip' : String :=
    if tip.length > allowed_tip_len then
      ⟨rstripChars (tip.data.take (allowed_tip_len - 1)) ++ ['…']⟩
    else tip
  tip' ++ tipHashtags

/-- The topic slug: topic lowercased with spaces removed
(`topic.lower().replace(" ", "")`). -/
def topicSlug (topic : String) : String :=
  ⟨(topic.data.map Char.toLower).filter (fun c => ¬ c = ' ')⟩

/-- The news hashtag decoration: `"\n\n#news #" + slug`. -/
def newsHashtags (topic : String) : String :=
  "\n\n#news #" ++ topicSlug topic

/-- `build_news_tweet(title, url, topic)`.  The reserved budget is the
decoration plus 25 characters for a shortened link plus 1 newline; the
allowed title length is computed in `Int` because it can be negative in
Python when the decoration is long. -/
def build_news_tweet (title url topic : String) : String :=
  let max_len : Int := 280
  let reserved : Int := (newsHashtags topic).length + 25 + 1
  let allowed_title_len : Int := max_len - reserved
  let text : String :=
    if (title.length : Int) > allowed_title_len then
      ⟨rstripChars (title.data.take (max 0 (allowed_title_len - 1)).toNat) ++ ['…']⟩
    else title
  text ++ "\n" ++ url ++ newsHashtags topic

/-- `derive_image_query`: the loop over the candidate list.  A candidate
is used when it is not `None` and not whitespace-only (Python
`if candidate and candidate.strip()`); the query is its first at most 8
words joined by single spaces. -/
def firstQuery : List (Option String) → String
  | [] => "technology"
  | none :: rest => firstQuery rest
  | some c :: rest =>
      if ¬ pystrip c = "" then
        ⟨joinSp ((splitWs (stripChars c.data)).take 8)⟩
      else firstQuery rest

/-- `derive_image_query(preferred_query, news_title, topic, tip)`. -/
def derive_image_query (preferred_query news_title topic tip : Option String) :
    String :=
  firstQuery [preferred_query, news_title, topic, tip]

/-! ### Word wrapping (`wrap_text`) -/

/-- The trial string measured by `wrap_text`:
`(" ".join(current + [word])).strip()`. -/
def wrapTrial (current : List (List Char)) (word : List Char) : List Char :=
  stripChars (joinSp (current ++ [word]))

/-- The loop of `wrap_text`, keeping the current line as its word list.
`width` is the text-width measurement (`draw.textbbox` width), a
parameter since it depends on the font rendering backend. -/
def wrapAux (width : List Char → Nat) (max_width : Nat) :
    List (List Char) → List (List Char) → List (List Char)
  | [], current => if current.isEmpty then [] else [joinSp current]
  | word :: ws, current =>
      if width (wrapTrial current word) ≤ max_width ∨ current.isEmpty then
        wrapAux width max_width ws (current ++ [word])
      else
        joinSp current :: wrapAux width max_width ws [word]

/-- `wrap_text(text, draw, font, max_width)`: the returned lines, as
character lists. -/
def wrap_text (width : List Char → Nat) (max_width : Nat) (text : List Char) :
    List (List Char) :=
  wrapAux width max_width (splitWs text) []

/-! ### Colors and the gradient (`pick_colors`, `generate_image_with_text`) -/

/-- The fixed palette of base hues in `pick_colors`. -/
def base_hues : List Nat := [200, 220, 260, 300, 180, 160, 210]

/-- The Python `random` module, modelled as an abstract seeded generator:
`seedFn` is `random.seed` (building a fresh state from the integer seed)
and `choiceFn` is `random.choice` (returning a list element and the next
state). -/
structure RandomLib where
  State : Type
  seedFn : Int → State
  choiceFn : State → List Nat → Nat × State

/-- `colorsys` helper `_v(m1, m2, hue)`, in exact rational arithmetic. -/
def hlsV (m1 m2 hue : ℚ) : ℚ :=
  let h := hue - ⌊hue⌋
  if h < 1 / 6 then m1 + (m2 - m1) * h * 6
  else if h < 1 / 2 then m2
  else if h < 2 / 3 then m1 + (m2 - m1) * (2 / 3 - h) * 6
  else m1

/-- `colorsys.hls_to_rgb(h, l, s)`, in exact rational arithmetic. -/
def hls_to_rgb (h l s : ℚ) : ℚ × ℚ × ℚ :=
  if s = 0 then (l, l, l)
  else
    let m2 := if l ≤ 1 / 2 then l * (1 + s) else l + s - l * s
    let m1 := 2 * l - m2
    (hlsV m1 m2 (h + 1 / 3), hlsV m1 m2 h, hlsV m1 m2 (h - 1 / 3))

/-- The inner `hsl_to_rgb(h, s, l)` of `pick_colors`:
`tuple(int(c * 255) for c in colorsys.hls_to_rgb(h / 360, l, s))`.
`int()` truncates toward zero, which is `floor` on the nonnegative
channel values produced here. -/
def hsl_to_rgb (h : Nat) (s l : ℚ) : Int × Int × Int :=
  let (r, g, b) := hls_to_rgb ((h : ℚ) / 360) l s
  (⌊r * 255⌋, ⌊g * 255⌋, ⌊b * 255⌋)

/-- `pick_colors(seed)` with the ambient global `random` state passed
explicitly: `random.seed(seed)` replaces the ambient state `g`, then
`random.choice(base_hues)` picks the hue. -/
def pick_colors (R : RandomLib) (g : R.State) (seed : Int) :
    ((Int × Int × Int) × (Int × Int × Int)) × R.State :=
  let s0 := R.seedFn seed
  let (hue, s1) := R.choiceFn s0 base_hues
  let c1 := hsl_to_rgb hue (45 / 100) (60 / 100)
  let c2 := hsl_to_rgb ((hue + 40) % 360) (45 / 100) (40 / 100)
  ((c1, c2), s1)

/-- One gradient scanline color of `generate_image_with_text`:
`int(top * (1 - ratio) + bottom * ratio)` per channel with
`ratio = y / (height - 1)`, in exact arithmetic. -/
def gradientRow (top bottom : Int × Int × Int) (y : Nat) : Int × Int × Int :=
  let ratio : ℚ := (y : ℚ) / 674
  (⌊(top.1 : ℚ) * (1 - ratio) + (bottom.1 : ℚ) * ratio⌋,
   ⌊(top.2.1 : ℚ) * (1 - ratio) + (bottom.2.1 : ℚ) * ratio⌋,
   ⌊(top.2.2 : ℚ) * (1 - ratio) + (bottom.2.2 : ℚ) * ratio⌋)

/-- The gradient background scanlines (`for y in range(height)` with
`height = 675`). -/
def gradientRows (top bottom : Int × Int × Int) : List (Int × Int × Int) :=
  (List.range 675).map (gradientRow top bottom)

/-- The gradient pixel content of one render of
`generate_image_with_text` with the given seed, starting from ambient
`random` state `g`. -/
def render_gradient (R : RandomLib) (g : R.State) (seed : Int) :
    List (Int × Int × Int) :=
  let cs := (pick_colors R g seed).1
  gradientRows cs.1 cs.2

/-! ### Posting (`post_to_twitter`) -/

/-- The four required secret names, in the order the code checks them. -/
def secretNames : List String :=
  ["TWITTER_API_KEY", "TWITTER_API_SECRET",
   "TWITTER_ACCESS_TOKEN", "TWITTER_ACCESS_TOKEN_SECRET"]

/-- Python falsiness of `os.environ.get(name)`: `None` or the empty
string. -/
def envFalsy (v : Option String) : Bool :=
  match v with
  | none => true
  | some s => s = ""

/-- The `missing` list computed by `post_to_twitter`. -/
def missing_secrets (env : String → Option String) : List String :=
  secretNames.filter (fun n => envFalsy (env n))

/-- `post_to_twitter(status_text, media_path)`.  The environment is the
function `env`; everything from `import tweepy` on (authentication,
media upload, status update) is the collaborator `network`, which is
only consulted after the secret check passes. -/
def post_to_twitter (env : String → Option String)
    (network : String → Option String → Except String Unit)
    (status_text : String) (media_path : Option String) :
    Except String Unit :=
  let missing := missing_secrets env
  if missing.isEmpty then network status_text media_path
  else
    Except.error
      ("Missing required environment variables: " ++
        String.intercalate ", " missing)

/-! ### The programmatic entry point (`run_daily_tweet`) -/

/-- The dict returned by `run_daily_tweet` (`error` is `none` when the
key is absent). -/
structure TweetResult where
  ok : Bool
  dry_run : Bool
  tweet_text : String
  media_path : Option String
  error : Option String
deriving DecidableEq, Repr

/-- `os.path.join(tmp_dir, "daily_tweet.jpg")` for the paths occurring
here (relative second component). -/
def pathJoin (dir name : String) : String :=
  if dir.endsWith "/" then dir ++ name else dir ++ "/" ++ name

/-- `os.environ.get("RUNNER_TEMP") or "/tmp"`. -/
def tmpDir (env : String → Option String) : String :=
  match env "RUNNER_TEMP" with
  | some s => if s = "" then "/tmp" else s
  | none => "/tmp"

/-- Content selection of `run_daily_tweet`: the tweet text and the news
title (when a news item was used).  `fetchNews` is `fetch_top_news`,
returning the `(title, link)` pair or `None`. -/
def content_step (today : PyDate) (fileLines : Option (List String))
    (fetchNews : String → Option (String × String)) (news_topic : String) :
    Option (String × Option String) :=
  let nt := pystrip news_topic
  if nt = "" then do
    let tip ← selected_tip fileLines today
    pure (build_tweet_text tip, none)
  else
    match fetchNews nt with
    | some (title, url) => pure (build_news_tweet title url nt, some title)
    | none => do
        let tip ← selected_tip fileLines today
        pure (build_tweet_text tip, none)

/-- `news_title or news_topic.strip()`: the Python `or` of two strings
(left operand unless it is falsy). -/
def orElseStr (a : Option String) (b : String) : String :=
  match a with
  | some s => if s = "" then b else s
  | none => b

/-- The shared fallback of the media section: generate an image with
`generate_image_with_text`.  `gen text path seed` is the render
collaborator (it returns the output path, or `None` when the rendering
backend is unavailable). -/
def generated_media (today : PyDate) (fileLines : Option (List String))
    (gen : String → String → Int → Option String)
    (news_title : Option String) (nt desired : String) :
    Option (Option String) :=
  if nt = "" then do
    let tip ← selected_tip fileLines today
    pure (gen tip desired (tip_index fileLines today))
  else
    pure (gen (orElseStr news_title nt) desired
      (deterministic_index 1000 today))

/-- The media section of `run_daily_tweet`.  `fetchGoogle query` is
`fetch_image_from_google` (true when it fetched and wrote the file). -/
def media_step (today : PyDate) (fileLines : Option (List String))
    (fetchGoogle : String → Bool)
    (gen : String → String → Int → Option String)
    (env : String → Option String) (news_title : Option String)
    (no_image : Bool) (image_source image_query news_topic : String) :
    Option (Option String) :=
  let nt := pystrip news_topic
  if ¬ no_image ∧ ¬ image_source = "none" then
    let desired := pathJoin (tmpDir env) "daily_tweet.jpg"
    if image_source = "google" then do
      let candidate_tip : Option String ←
        if nt = "" then do
          let tip ← selected_tip fileLines today
          pure (some tip)
        else pure none
      let query := derive_image_query (some image_query) news_title
        (if nt = "" then none else some nt) candidate_tip
      if fetchGoogle query then pure (some desired)
      else generated_media today fileLines gen news_title nt desired
    else generated_media today fileLines gen news_title nt desired
  else pure none

/-- `run_daily_tweet(dry_run, no_image, tips_file, image_source,
image_query, news_topic)`.  The result is `none` when the Python code
would raise an uncaught exception (list indexing), otherwise the
returned dict.  `postFn` is the posting collaborator
(`post_to_twitter`, typically `post_to_twitter env network`). -/
def run_daily_tweet (today : PyDate) (fileLines : Option (List String))
    (fetchNews : String → Option (String × String))
    (fetchGoogle : String → Bool)
    (gen : String → String → Int → Option String)
    (env : String → Option String)
    (postFn : String → Option String → Except String Unit)
    (dry_run no_image : Bool)
    (image_source image_query news_topic : String) : Option TweetResult := do
  let (tweet_text, news_title) ←
    content_step today fileLines fetchNews news_topic
  let media_path ←
    media_step today fileLines fetchGoogle gen env news_title
      no_image image_source image_query news_topic
  if dry_run then
    pure ⟨true, true, tweet_text, media_path, none⟩
  else
    match postFn tweet_text media_path with
    | Except.error e => pure ⟨false, false, tweet_text, media_path, some e⟩
    | Except.ok _ => pure ⟨true, false, tweet_text, media_path, none⟩

/-! ## Supporting lemmas -/

theorem rstripChars_length_le (l : List Char) :
    (rstripChars l).length ≤ l.length := by
  unfold rstripChars
  calc ((l.reverse.dropWhile isPySpace).reverse).length
      = (l.reverse.dropWhile isPySpace).length := List.length_reverse _
    _ ≤ l.reverse.length :=
        List.Sublist.length_le (List.dropWhile_sublist isPySpace)
    _ = l.length := List.length_reverse _

theorem string_mk_length (l : List Char) : (String.mk l).length = l.length :=
  rfl

theorem deterministic_index_nonneg (total : Int) (d : PyDate)
    (h : 0 < total) : 0 ≤ deterministic_index total d := by
  unfold deterministic_index
  rw [if_neg (by omega)]
  exact Int.emod_nonneg _ (by omega)

theorem deterministic_index_lt (total : Int) (d : PyDate)
    (h : 0 < total) : deterministic_index total d < total := by
  unfold deterministic_index
  rw [if_neg (by omega)]
  exact Int.emod_lt_of_pos _ h

/-- Sanity check of the SHA-256 embedding against the FIPS 180-4 test
vector for "abc". -/
theorem sha256_abc_vector :
    sha256 [97, 98, 99] =
      [186, 120, 22, 191, 143, 1, 207, 234,
       65, 65, 64, 222, 93, 174, 34, 35,
       176, 3, 97, 163, 150, 23, 122, 156,
       180, 16, 255, 97, 242, 0, 21, 173] := by
  decide

/-- Sanity check against `hashlib.sha256(b"2024-01-01")`: the first
8 digest bytes are 0x41b62fb4518505d3, and that value modulo 40 is 19. -/
theorem deterministic_index_vector :
    deterministic_index 40 ⟨2024, 1, 1⟩ = 19 ∧
      bytesToNatBE ((sha256 (utf8Bytes (isoformat ⟨2024, 1, 1⟩))).take 8) =
        0x41b62fb4518505d3 := by
  constructor <;> decide

/-! ## Claims -/

/-- C1: for every date and total > 0, `deterministic_index` equals the
first 8 bytes of the SHA-256 digest of the UTF-8 encoded ISO date,
read big-endian, modulo `total`; it lies in `[0, total)`; repeated
calls agree; and `total = 0` returns `0`. -/
theorem claim_C1 (total : Int) (d : PyDate) (h : 0 < total) :
    deterministic_index total d =
      ((bytesToNatBE ((sha256 (utf8Bytes (isoformat d))).take 8) : Int) %
        total) ∧
    0 ≤ deterministic_index total d ∧
    deterministic_index total d < total ∧
    deterministic_index total d = deterministic_index total d ∧
    deterministic_index 0 d = 0 := by
  refine ⟨?_, deterministic_index_nonneg total d h,
    deterministic_index_lt total d h, rfl, rfl⟩
  unfold deterministic_index
  rw [if_neg (by omega)]

theorem claim_C1_witness :
    0 < (3 : Int) ∧ 0 ≤ deterministic_index 3 ⟨2024, 1, 1⟩ ∧
      deterministic_index 3 ⟨2024, 1, 1⟩ < 3 :=
  ⟨by decide, (claim_C1 3 ⟨2024, 1, 1⟩ (by decide)).2.1,
    (claim_C1 3 ⟨2024, 1, 1⟩ (by decide)).2.2.1⟩

/-- C2: `build_tweet_text` output never exceeds 280 characters; a tip
within the 249-character budget is kept verbatim before the decoration;
a longer tip is cut to 248 characters, right-stripped, and ended with a
single ellipsis before the decoration. -/
theorem build_tweet_text_eq (tip : String) :
    build_tweet_text tip =
      (if tip.length > 249 then
        String.mk (rstripChars (tip.data.take 248) ++ ['…'])
      else tip) ++ tipHashtags := rfl

theorem claim_C2 (tip : String) :
    (build_tweet_text tip).length ≤ 280 ∧
    (tip.length ≤ 280 - tipHashtags.length →
      build_tweet_text tip = tip ++ tipHashtags) ∧
    (tip.length > 280 - tipHashtags.length →
      build_tweet_text tip =
        String.mk
          (rstripChars (tip.data.take (280 - tipHashtags.length - 1)) ++
            ['…']) ++ tipHashtags) := by
  have hh : (280 : Nat) - tipHashtags.length = 249 := by decide
  have hl : tipHashtags.length = 31 := by decide
  rw [hh, show (249 : Nat) - 1 = 248 from rfl]
  refine ⟨?_, ?_, ?_⟩
  · rw [build_tweet_text_eq]
    by_cases h : tip.length > 249
    · rw [if_pos h, String.length_append, hl]
      have h1 : (rstripChars (tip.data.take 248)).length ≤ 248 := by
        have := rstripChars_length_le (tip.data.take 248)
        have h2 := List.length_take 248 tip.data
        omega
      rw [string_mk_length, List.length_append]
      simp only [List.length_cons, List.length_nil]
      omega
    · rw [if_neg h, String.length_append, hl]
      omega
  · intro h
    rw [build_tweet_text_eq, if_neg (by omega)]
  · intro h
    rw [build_tweet_text_eq, if_pos (by omega)]

theorem claim_C2_witness :
    build_tweet_text "Write tests." = "Write tests." ++ tipHashtags ∧
      (build_tweet_text (String.mk (List.replicate 250 'a'))).length ≤ 280 :=
  ⟨(claim_C2 "Write tests.").2.1 (by decide),
    (claim_C2 (String.mk (List.replicate 250 'a'))).1⟩

/-- Characterization of `build_news_tweet` by unfolding its lets. -/
theorem build_news_tweet_eq (title url topic : String) :
    build_news_tweet title url topic =
      (if (title.length : Int) >
          (280 : Int) - (((newsHashtags topic).length : Int) + 25 + 1)
      then
        String.mk
          (rstripChars
            (title.data.take
              (max 0
                ((280 : Int) - (((newsHashtags topic).length : Int) + 25 + 1)
                  - 1)).toNat)
            ++ ['…'])
      else title) ++ "\n" ++ url ++ newsHashtags topic := rfl

theorem newsHashtags_length (topic : String) :
    (newsHashtags topic).length = 9 + (topicSlug topic).length := by
  have h9 : ("\n\n#news #" : String).length = 9 := by decide
  unfold newsHashtags
  rw [String.length_append, h9]

set_option maxRecDepth 4000 in
/-- C3 fails as stated: the code reserves only 25 characters for the
URL, so a longer URL overflows the 280-character budget.  Concretely a
1-character title, a 269-character URL and topic "x" give 281. -/
theorem claim_C3_cex :
    ¬ (build_news_tweet "T" (String.mk (List.replicate 269 'u')) "x").length
        ≤ 280 := by
  decide

/-- C3, amended: the composed news post text has length at most 280
whenever the URL is within the reserved 25-character budget and the
topic slug leaves a positive title budget (at most 244 characters). -/
theorem claim_C3 (title url topic : String) (hurl : url.length ≤ 25)
    (hslug : (topicSlug topic).length ≤ 244) :
    (build_news_tweet title url topic).length ≤ 280 := by
  rw [build_news_tweet_eq]
  have hH := newsHashtags_length topic
  have hnl : ("\n" : String).length = 1 := by decide
  by_cases h :
      (title.length : Int) > 280 - ((newsHashtags topic).length + 25 + 1)
  · rw [if_pos h]
    have hmax :
        max 0 (280 - (((newsHashtags topic).length : Int) + 25 + 1) - 1) =
          280 - (((newsHashtags topic).length : Int) + 25 + 1) - 1 := by
      apply max_eq_right
      omega
    rw [hmax, String.length_append, String.length_append,
      String.length_append, string_mk_length, List.length_append, hnl]
    have h1 := rstripChars_length_le
      (title.data.take
        (280 - (((newsHashtags topic).length : Int) + 25 + 1) - 1).toNat)
    have h2 := List.length_take
      (280 - (((newsHashtags topic).length : Int) + 25 + 1) - 1).toNat
      title.data
    simp only [List.length_cons, List.length_nil]
    omega
  · rw [if_neg h]
    rw [String.length_append, String.length_append, String.length_append, hnl]
    omega

theorem claim_C3_witness :
    "https://t.co/abcd1234".length ≤ 25 ∧ (topicSlug "ai").length ≤ 244 ∧
      (build_news_tweet "Some Headline" "https://t.co/abcd1234" "ai").length
        ≤ 280 :=
  ⟨by decide, by decide,
    claim_C3 "Some Headline" "https://t.co/abcd1234" "ai" (by decide)
      (by decide)⟩

/-- The query built from one candidate: its first at most 8 words,
joined by single spaces. -/
def first8Words (c : String) : String :=
  String.mk (joinSp ((splitWs (stripChars c.data)).take 8))

/-- C10: `derive_image_query` returns the first-8-words query of the
first candidate (preferred query, news title, topic, tip, in that
order) that is present and not whitespace-only, and the constant
"technology" when no candidate qualifies. -/
theorem claim_C10 (p n t tip : Option String) :
    derive_image_query p n t tip =
      match ([p, n, t, tip].filterMap id).find?
          (fun c => ¬ pystrip c = "") with
      | some c => first8Words c
      | none => "technology" := by
  have step : ∀ (c : String) (rest : List String),
      (List.find? (fun c => ¬ pystrip c = "") (c :: rest)) =
        if ¬ pystrip c = "" then some c
        else List.find? (fun c => ¬ pystrip c = "") rest := by
    intro c rest
    by_cases h : pystrip c = ""
    · rw [if_neg (by simpa using h), List.find?_cons_of_neg]
      simpa using h
    · rw [if_pos (by simpa using h), List.find?_cons_of_pos]
      simpa using h
  have gen : ∀ l : List (Option String),
      firstQuery l =
        match (l.filterMap id).find? (fun c => ¬ pystrip c = "") with
        | some c => first8Words c
        | none => "technology" := by
    intro l
    induction l with
    | nil => rfl
    | cons o rest ih =>
      cases o with
      | none => simpa [firstQuery, List.filterMap_cons] using ih
      | some c =>
        by_cases h : pystrip c = ""
        · simp only [firstQuery, List.filterMap_cons, id_eq, step,
            if_neg (not_not_intro h)]
          exact ih
        · simp only [firstQuery, List.filterMap_cons, id_eq, step, if_pos h]
          rfl
  exact gen [p, n, t, tip]

theorem claim_C10_witness :
    derive_image_query (some "") (some "  ") none
        (some " one two three four five six seven eight nine ") =
      first8Words " one two three four five six seven eight nine " := by
  have h := claim_C10 (some "") (some "  ") none
    (some " one two three four five six seven eight nine ")
  simpa using h

/-- C8: when at least one of the four required posting secrets is
absent or empty, `post_to_twitter` fails with an error message listing
exactly the missing names, the missing list is exactly the falsy
secrets in order, and the result does not depend on the network
collaborator (the failure happens before any network call or
network-library import). -/
theorem claim_C8 (env : String → Option String)
    (network : String → Option String → Except String Unit)
    (text : String) (media : Option String)
    (h : ∃ n ∈ secretNames, envFalsy (env n)) :
    post_to_twitter env network text media =
      Except.error
        ("Missing required environment variables: " ++
          String.intercalate ", " (missing_secrets env)) ∧
    (∀ n, n ∈ missing_secrets env ↔ n ∈ secretNames ∧ envFalsy (env n)) ∧
    (∀ network',
      post_to_twitter env network text media =
        post_to_twitter env network' text media) := by
  obtain ⟨n, hn, hfalsy⟩ := h
  have hmem : n ∈ missing_secrets env := by
    rw [missing_secrets, List.mem_filter]
    exact ⟨hn, hfalsy⟩
  have hne : ¬ (missing_secrets env).isEmpty = true := by
    cases hl : missing_secrets env with
    | nil => rw [hl] at hmem; cases hmem
    | cons a as => simp [hl]
  have herr : post_to_twitter env network text media =
      Except.error
        ("Missing required environment variables: " ++
          String.intercalate ", " (missing_secrets env)) := by
    unfold post_to_twitter
    rw [if_neg hne]
  refine ⟨herr, fun m => ?_, fun network' => ?_⟩
  · rw [missing_secrets, List.mem_filter]
  · rw [herr]
    unfold post_to_twitter
    rw [if_neg hne]

theorem claim_C8_witness :
    post_to_twitter (fun _ => none) (fun _ _ => Except.ok ()) "hello" none =
      Except.error
        ("Missing required environment variables: " ++
          String.intercalate ", " (missing_secrets (fun _ => none))) :=
  (claim_C8 (fun _ => none) (fun _ _ => Except.ok ()) "hello" none
    ⟨"TWITTER_API_KEY", by decide, by decide⟩).1

/-- C7: the color pair picked by `pick_colors` does not depend on the
ambient `random` state (so two invocations with the same seed agree),
the rendered gradient scanlines are likewise identical across two
renders, and — whenever `random.choice` returns an element of its
argument — the pair is derived from a hue of the fixed palette as in
the source (lighter top color, darker +40 degree bottom color). -/
theorem claim_C7 (R : RandomLib) (g1 g2 : R.State) (seed : Int) :
    (pick_colors R g1 seed).1 = (pick_colors R g2 seed).1 ∧
    render_gradient R g1 seed = render_gradient R g2 seed ∧
    ((∀ (s : R.State) (l : List Nat), ¬ l = [] → (R.choiceFn s l).1 ∈ l) →
      ∃ hue ∈ base_hues,
        (pick_colors R g1 seed).1 =
          (hsl_to_rgb hue (45 / 100) (60 / 100),
           hsl_to_rgb ((hue + 40) % 360) (45 / 100) (40 / 100))) := by
  refine ⟨rfl, rfl, fun hchoice => ?_⟩
  refine ⟨(R.choiceFn (R.seedFn seed) base_hues).1, ?_, ?_⟩
  · exact hchoice _ base_hues (by simp [base_hues])
  · rfl

theorem claim_C7_witness :
    ∃ hue ∈ base_hues,
      (pick_colors ⟨Nat, fun s => s.toNat, fun st l => (l.headD 0, st)⟩
          0 5).1 =
        (hsl_to_rgb hue (45 / 100) (60 / 100),
         hsl_to_rgb ((hue + 40) % 360) (45 / 100) (40 / 100)) :=
  (claim_C7 ⟨Nat, fun s => s.toNat, fun st l => (l.headD 0, st)⟩ 0 1 5).2.2
    (fun s l hl => by
      cases l with
      | nil => exact absurd rfl hl
      | cons a as => simp)

theorem splitStep_space (c : Char) (acc : List (List Char))
    (h : isPySpace c = true) : splitStep c acc = [] :: acc := by
  unfold splitStep
  rw [if_pos h]

theorem splitStep_nonspace_nil (c : Char) (h : isPySpace c = false) :
    splitStep c [] = [[c]] := by
  unfold splitStep
  rw [if_neg (by simp [h])]

theorem splitStep_nonspace_cons (c : Char) (w : List Char)
    (rest : List (List Char)) (h : isPySpace c = false) :
    splitStep c (w :: rest) = (c :: w) :: rest := by
  unfold splitStep
  rw [if_neg (by simp [h])]

/-- Words produced by the split fold contain no whitespace characters. -/
theorem foldr_splitStep_no_space (cs : List Char) :
    ∀ w ∈ cs.foldr splitStep [], ∀ c ∈ w, isPySpace c = false := by
  induction cs with
  | nil => intro w hw; cases hw
  | cons c cs ih =>
    intro w hw d hd
    rw [List.foldr_cons] at hw
    by_cases hsp : isPySpace c = true
    · rw [splitStep_space c _ hsp, List.mem_cons] at hw
      rcases hw with rfl | hw
      · cases hd
      · exact ih w hw d hd
    · have hc : isPySpace c = false := by simpa using hsp
      cases hacc : cs.foldr splitStep [] with
      | nil =>
        rw [hacc, splitStep_nonspace_nil c hc, List.mem_singleton] at hw
        subst hw
        rw [List.mem_singleton] at hd
        subst hd
        exact hc
      | cons g rest =>
        rw [hacc, splitStep_nonspace_cons c g rest hc, List.mem_cons] at hw
        rcases hw with rfl | hw
        · rw [List.mem_cons] at hd
          rcases hd with rfl | hd
          · exact hc
          · exact ih g (by rw [hacc]; exact List.mem_cons_self g rest) d hd
        · exact ih w (by rw [hacc]; exact List.mem_cons_of_mem g hw) d hd

theorem splitWs_no_space (cs : List Char) :
    ∀ w ∈ splitWs cs, ∀ c ∈ w, isPySpace c = false := by
  intro w hw
  rw [splitWs, List.mem_filter] at hw
  exact foldr_splitStep_no_space cs w hw.1

theorem splitWs_ne_nil (cs : List Char) : ∀ w ∈ splitWs cs, w ≠ [] := by
  intro w hw
  rw [splitWs, List.mem_filter] at hw
  simpa [List.isEmpty_iff] using hw.2

/-- Folding the split step over a nonempty whitespace-free word
prepends the word to the head group of the accumulator. -/
theorem foldr_splitStep_clean (w : List Char) :
    w ≠ [] → (∀ c ∈ w, isPySpace c = false) →
    ∀ acc : List (List Char),
      w.foldr splitStep acc = (w ++ acc.headD []) :: acc.tail := by
  induction w with
  | nil => intro hw; exact absurd rfl hw
  | cons c w' ih =>
    intro _ hclean acc
    have hc : isPySpace c = false := hclean c (List.mem_cons_self c w')
    by_cases hw' : w' = []
    · subst hw'
      rw [List.foldr_cons, List.foldr_nil]
      cases acc with
      | nil => rw [splitStep_nonspace_nil c hc]; rfl
      | cons g rest => rw [splitStep_nonspace_cons c g rest hc]; rfl
    · rw [List.foldr_cons,
        ih hw' (fun d hd => hclean d (List.mem_cons_of_mem c hd)) acc,
        splitStep_nonspace_cons c _ _ hc]
      rfl

/-- Splitting the space-joined list of nonempty whitespace-free words
recovers exactly those words (before the empty-group filter). -/
theorem foldr_splitStep_joinSp (ws : List (List Char))
    (h : ∀ w ∈ ws, w ≠ [] ∧ ∀ c ∈ w, isPySpace c = false) :
    (joinSp ws).foldr splitStep [] = ws := by
  induction ws with
  | nil => rfl
  | cons w vs ih =>
    cases hvs : vs with
    | nil =>
      subst hvs
      show (joinSp [w]).foldr splitStep [] = [w]
      rw [show joinSp [w] = w from rfl,
        foldr_splitStep_clean w (h w (List.mem_cons_self w [])).1
          (h w (List.mem_cons_self w [])).2]
      simp
    | cons v rest =>
      subst hvs
      show (joinSp (w :: v :: rest)).foldr splitStep [] = w :: v :: rest
      rw [show joinSp (w :: v :: rest) = w ++ ' ' :: joinSp (v :: rest)
          from rfl,
        List.foldr_append, List.foldr_cons,
        ih (fun u hu => h u (List.mem_cons_of_mem w hu))]
      rw [show splitStep ' ' (v :: rest) = [] :: v :: rest by
          unfold splitStep; rw [if_pos (by decide)]]
      rw [foldr_splitStep_clean w (h w (List.mem_cons_self w _)).1
        (h w (List.mem_cons_self w _)).2]
      simp

/-- Splitting the space-joined list of nonempty whitespace-free words
recovers exactly those words. -/
theorem splitWs_joinSp (ws : List (List Char))
    (h : ∀ w ∈ ws, w ≠ [] ∧ ∀ c ∈ w, isPySpace c = false) :
    splitWs (joinSp ws) = ws := by
  rw [splitWs, foldr_splitStep_joinSp ws h]
  apply List.filter_eq_self.mpr
  intro w hw
  have := (h w hw).1
  simp [List.isEmpty_iff, this]

/-- The wrap loop preserves the word sequence: flattening the split
words of all produced lines yields the pending current line followed by
the remaining words. -/
theorem wrapAux_flatMap (width : List Char → Nat) (mw : Nat) :
    ∀ (ws current : List (List Char)),
    (∀ w ∈ ws, w ≠ [] ∧ ∀ c ∈ w, isPySpace c = false) →
    (∀ w ∈ current, w ≠ [] ∧ ∀ c ∈ w, isPySpace c = false) →
    (wrapAux width mw ws current).flatMap splitWs = current ++ ws := by
  intro ws
  induction ws with
  | nil =>
    intro current _ hcur
    unfold wrapAux
    cases hc : current with
    | nil => simp
    | cons g rest =>
      rw [if_neg (by simp)]
      rw [List.flatMap_cons, List.flatMap_nil,
        splitWs_joinSp (g :: rest) (hc ▸ hcur)]
  | cons w ws ih =>
    intro current hws hcur
    unfold wrapAux
    by_cases hcond :
        width (wrapTrial current w) ≤ mw ∨ current.isEmpty = true
    · rw [if_pos hcond,
        ih (current ++ [w])
          (fun u hu => hws u (List.mem_cons_of_mem w hu))
          (fun u hu => by
            rcases List.mem_append.mp hu with h1 | h1
            · exact hcur u h1
            · rw [List.mem_singleton] at h1
              subst h1
              exact hws u (List.mem_cons_self u ws))]
      simp
    · rw [if_neg hcond]
      rw [List.flatMap_cons,
        ih [w]
          (fun u hu => hws u (List.mem_cons_of_mem w hu))
          (fun u hu => by
            rw [List.mem_singleton] at hu
            subst hu
            exact hws u (List.mem_cons_self u ws))]
      have hcurne : current ≠ [] := by
        intro hnil
        exact hcond (Or.inr (by simp [hnil]))
      rw [splitWs_joinSp current hcur]
      simp

/-- C6: for every width-measurement function, concatenating the words
of all wrapped lines, in order, reproduces the word sequence of the
input exactly; and an input consisting of a single word wider than the
limit still yields that word as its own line. -/
theorem claim_C6 (width : List Char → Nat) (max_width : Nat)
    (text : List Char) :
    (wrap_text width max_width text).flatMap splitWs = splitWs text ∧
    (∀ w, splitWs text = [w] → max_width < width (wrapTrial [] w) →
      wrap_text width max_width text = [w]) := by
  constructor
  · rw [wrap_text]
    rw [wrapAux_flatMap width max_width (splitWs text) []
      (fun u hu => ⟨splitWs_ne_nil text u hu, splitWs_no_space text u hu⟩)
      (fun u hu => by cases hu)]
    rfl
  · intro w hsplit _
    rw [wrap_text, hsplit]
    unfold wrapAux
    rw [if_pos (Or.inr (by simp))]
    unfold wrapAux
    rw [if_neg (by simp)]
    rfl

theorem claim_C6_witness :
    (wrap_text List.length 5 "aa bb cc ddddddd e".data).flatMap splitWs =
        splitWs "aa bb cc ddddddd e".data ∧
      wrap_text List.length 2 "hello".data = ["hello".data] :=
  ⟨(claim_C6 List.length 5 "aa bb cc ddddddd e".data).1,
    (claim_C6 List.length 2 "hello".data).2 "hello".data (by decide)
      (by decide)⟩

/-! ### Pipeline lemmas -/

theorem effective_tips_ne_nil (fileLines : Option (List String)) :
    effective_tips fileLines ≠ [] := by
  unfold effective_tips
  by_cases h : read_tips_from_file fileLines = []
  · rw [if_pos h]
    simp [get_default_tips]
  · rw [if_neg h]
    exact h

/-- Tip selection never fails: the tip list is nonempty and the
deterministic index is in range. -/
theorem selected_tip_some (fileLines : Option (List String))
    (today : PyDate) : ∃ t, selected_tip fileLines today = some t := by
  unfold selected_tip tip_index
  have hne := effective_tips_ne_nil fileLines
  have hlen : 0 < (effective_tips fileLines).length :=
    List.length_pos.mpr hne
  have hpos : (0 : Int) < ((effective_tips fileLines).length : Int) := by
    exact_mod_cast hlen
  have h0 := deterministic_index_nonneg _ today hpos
  have h1 := deterministic_index_lt _ today hpos
  have hrange :
      (deterministic_index ((effective_tips fileLines).length : Int)
        today).toNat < (effective_tips fileLines).length := by
    omega
  exact ⟨_, List.get?_eq_get hrange⟩

/-- Content selection never fails. -/
theorem content_step_some (today : PyDate) (fileLines : Option (List String))
    (fetchNews : String → Option (String × String)) (news_topic : String) :
    ∃ p, content_step today fileLines fetchNews news_topic = some p := by
  obtain ⟨t, ht⟩ := selected_tip_some fileLines today
  unfold content_step
  by_cases h : pystrip news_topic = ""
  · rw [if_pos h]
    refine ⟨(build_tweet_text t, none), ?_⟩
    simp [ht]
  · rw [if_neg h]
    cases hn : fetchNews (pystrip news_topic) with
    | some pr => exact ⟨_, rfl⟩
    | none =>
      refine ⟨(build_tweet_text t, none), ?_⟩
      simp [ht]

/-- With a nonempty topic whose news lookup returns nothing, content
selection falls back to the deterministically selected tip. -/
theorem content_step_news_fallback (today : PyDate)
    (fileLines : Option (List String))
    (fetchNews : String → Option (String × String)) (news_topic : String)
    (t : String) (hnt : ¬ pystrip news_topic = "")
    (hnews : fetchNews (pystrip news_topic) = none)
    (ht : selected_tip fileLines today = some t) :
    content_step today fileLines fetchNews news_topic =
      some (build_tweet_text t, none) := by
  unfold content_step
  rw [if_neg hnt, hnews]
  simp [ht]

/-- Media resolution never fails (rendering unavailability is reported
as `none` media, not as an exception). -/
theorem media_step_some (today : PyDate) (fileLines : Option (List String))
    (fetchGoogle : String → Bool)
    (gen : String → String → Int → Option String)
    (env : String → Option String) (news_title : Option String)
    (no_image : Bool) (image_source image_query news_topic : String) :
    ∃ m, media_step today fileLines fetchGoogle gen env news_title
      no_image image_source image_query news_topic = some m := by
  obtain ⟨t, ht⟩ := selected_tip_some fileLines today
  simp only [media_step, generated_media, ht, Option.bind_eq_bind,
    Option.some_bind]
  repeat' split
  all_goals try simp only [Option.pure_def, Option.some_bind]
  all_goals try repeat' split
  all_goals exact ⟨_, rfl⟩

/-- The final record construction of `run_daily_tweet`. -/
theorem run_daily_tweet_eq (today : PyDate)
    (fileLines : Option (List String))
    (fetchNews : String → Option (String × String))
    (fetchGoogle : String → Bool)
    (gen : String → String → Int → Option String)
    (env : String → Option String)
    (postFn : String → Option String → Except String Unit)
    (dry_run no_image : Bool)
    (image_source image_query news_topic : String)
    (txt : String) (ntl : Option String) (m : Option String)
    (hc : content_step today fileLines fetchNews news_topic =
      some (txt, ntl))
    (hm : media_step today fileLines fetchGoogle gen env ntl
      no_image image_source image_query news_topic = some m) :
    run_daily_tweet today fileLines fetchNews fetchGoogle gen env postFn
        dry_run no_image image_source image_query news_topic =
      some (if dry_run then ⟨true, true, txt, m, none⟩
        else
          match postFn txt m with
          | Except.error e => ⟨false, false, txt, m, some e⟩
          | Except.ok _ => ⟨true, false, txt, m, none⟩) := by
  unfold run_daily_tweet
  rw [hc]
  simp only [Option.bind_eq_bind, Option.some_bind, hm]
  cases dry_run with
  | true => rfl
  | false =>
    cases postFn txt m with
    | error e => rfl
    | ok u => rfl

/-- The tweet text of the final record is the selected content text,
whatever the posting collaborator does. -/
theorem run_record_tweet_text
    (postFn : String → Option String → Except String Unit)
    (dry_run : Bool) (txt : String) (m : Option String) :
    (if dry_run then (⟨true, true, txt, m, none⟩ : TweetResult)
      else
        match postFn txt m with
        | Except.error e => ⟨false, false, txt, m, some e⟩
        | Except.ok _ => ⟨true, false, txt, m, none⟩).tweet_text = txt := by
  cases dry_run with
  | true => rfl
  | false => cases postFn txt m <;> rfl

/-- C4: when the topic is nonempty and the news lookup returns nothing,
the run yields a Tip-variant text — the deterministically selected tip
with the hashtag decoration — and does not raise. -/
theorem claim_C4 (today : PyDate) (fileLines : Option (List String))
    (fetchNews : String → Option (String × String))
    (fetchGoogle : String → Bool)
    (gen : String → String → Int → Option String)
    (env : String → Option String)
    (postFn : String → Option String → Except String Unit)
    (dry_run no_image : Bool) (image_source image_query news_topic : String)
    (hnt : ¬ pystrip news_topic = "")
    (hnews : fetchNews (pystrip news_topic) = none) :
    ∃ t r, selected_tip fileLines today = some t ∧
      run_daily_tweet today fileLines fetchNews fetchGoogle gen env postFn
        dry_run no_image image_source image_query news_topic = some r ∧
      r.tweet_text = build_tweet_text t := by
  obtain ⟨t, ht⟩ := selected_tip_some fileLines today
  obtain ⟨m, hm⟩ := media_step_some today fileLines fetchGoogle gen env none
    no_image image_source image_query news_topic
  have hc := content_step_news_fallback today fileLines fetchNews news_topic
    t hnt hnews ht
  refine ⟨t, _, ht,
    run_daily_tweet_eq today fileLines fetchNews fetchGoogle gen env postFn
      dry_run no_image image_source image_query news_topic
      (build_tweet_text t) none m hc hm, ?_⟩
  exact run_record_tweet_text postFn dry_run (build_tweet_text t) m

theorem claim_C4_witness :
    ∃ t r,
      selected_tip (some ["only tip"]) ⟨2024, 1, 1⟩ = some t ∧
      run_daily_tweet ⟨2024, 1, 1⟩ (some ["only tip"]) (fun _ => none)
        (fun _ => false) (fun _ _ _ => none) (fun _ => none)
        (fun _ _ => Except.ok ()) true true "none" "" "ai" = some r ∧
      r.tweet_text = build_tweet_text t :=
  claim_C4 ⟨2024, 1, 1⟩ (some ["only tip"]) (fun _ => none) (fun _ => false)
    (fun _ _ _ => none) (fun _ => none) (fun _ _ => Except.ok ()) true true
    "none" "" "ai" (by decide) rfl

/-- A failing Google image search makes the media section behave
exactly like the generated-image source. -/
theorem media_step_google_fail (today : PyDate)
    (fileLines : Option (List String)) (fetchGoogle : String → Bool)
    (gen : String → String → Int → Option String)
    (env : String → Option String) (news_title : Option String)
    (no_image : Bool) (image_query news_topic : String)
    (hfail : ∀ q, fetchGoogle q = false) :
    media_step today fileLines fetchGoogle gen env news_title no_image
        "google" image_query news_topic =
      media_step today fileLines fetchGoogle gen env news_title no_image
        "generated" image_query news_topic := by
  simp only [media_step, Option.bind_eq_bind]
  by_cases hni : no_image = true
  · rw [if_neg (fun h => h.1 hni), if_neg (fun h => h.1 hni)]
  · have hg1 : ¬ no_image = true ∧ ¬ ("google" : String) = "none" :=
      ⟨hni, by decide⟩
    have hg2 : ¬ no_image = true ∧ ¬ ("generated" : String) = "none" :=
      ⟨hni, by decide⟩
    rw [if_pos hg1, if_pos hg2]
    simp only [if_true]
    rw [if_neg (show ¬ ("generated" : String) = "google" by decide)]
    by_cases hnt : pystrip news_topic = ""
    · rw [if_pos hnt]
      cases hsel : selected_tip fileLines today with
      | none =>
        simp only [Option.pure_def, hsel, Option.none_bind, Option.some_bind,
          generated_media, if_pos hnt]
        rfl
      | some t =>
        simp only [Option.pure_def, hsel, Option.some_bind, hfail,
          Bool.false_eq_true, if_false]
    · rw [if_neg hnt]
      simp only [Option.pure_def, Option.some_bind, hfail,
        Bool.false_eq_true, if_false]

/-- C5: a run preferring the external image search whose search always
fails is identical, as a whole record, to the run preferring the
generated image under the same inputs — the fallback invokes the image
composer with the very seed and text the generated source uses. -/
theorem claim_C5 (today : PyDate) (fileLines : Option (List String))
    (fetchNews : String → Option (String × String))
    (fetchGoogle : String → Bool)
    (gen : String → String → Int → Option String)
    (env : String → Option String)
    (postFn : String → Option String → Except String Unit)
    (dry_run no_image : Bool) (image_query news_topic : String)
    (hfail : ∀ q, fetchGoogle q = false) :
    run_daily_tweet today fileLines fetchNews fetchGoogle gen env postFn
        dry_run no_image "google" image_query news_topic =
      run_daily_tweet today fileLines fetchNews fetchGoogle gen env postFn
        dry_run no_image "generated" image_query news_topic := by
  unfold run_daily_tweet
  cases hc : content_step today fileLines fetchNews news_topic with
  | none => rfl
  | some p =>
    obtain ⟨txt, ntl⟩ := p
    simp only [Option.bind_eq_bind, Option.some_bind]
    rw [media_step_google_fail today fileLines fetchGoogle gen env ntl
      no_image image_query news_topic hfail]

theorem claim_C5_witness :
    run_daily_tweet ⟨2024, 1, 1⟩ (some ["only tip"]) (fun _ => none)
        (fun _ => false) (fun _ p _ => some p) (fun _ => none)
        (fun _ _ => Except.ok ()) true false "google" "" "" =
      run_daily_tweet ⟨2024, 1, 1⟩ (some ["only tip"]) (fun _ => none)
        (fun _ => false) (fun _ p _ => some p) (fun _ => none)
        (fun _ _ => Except.ok ()) true false "generated" "" "" :=
  claim_C5 ⟨2024, 1, 1⟩ (some ["only tip"]) (fun _ => none) (fun _ => false)
    (fun _ p _ => some p) (fun _ => none) (fun _ _ => Except.ok ()) true
    false "" "" (fun _ => rfl)

theorem deterministic_index_one (d : PyDate) : deterministic_index 1 d = 0 := by
  unfold deterministic_index
  rw [if_neg (by omega)]
  exact Int.emod_one _

/-- C9, amended: a dry run never invokes the posting collaborator (the
result does not depend on it) and always returns a record with
`ok = true` and `dry_run = true`; with images disabled, an empty news
topic, and a tips file holding exactly one tip within the
249-character budget, the text is exactly that tip plus the hashtag
decoration and the media path is `None`. -/
theorem claim_C9 (today : PyDate) (fileLines : Option (List String))
    (fetchNews : String → Option (String × String))
    (fetchGoogle : String → Bool)
    (gen : String → String → Int → Option String)
    (env : String → Option String)
    (p1 p2 : String → Option String → Except String Unit)
    (no_image : Bool) (image_source image_query news_topic : String) :
    run_daily_tweet today fileLines fetchNews fetchGoogle gen env p1 true
        no_image image_source image_query news_topic =
      run_daily_tweet today fileLines fetchNews fetchGoogle gen env p2 true
        no_image image_source image_query news_topic ∧
    (∃ r, run_daily_tweet today fileLines fetchNews fetchGoogle gen env p1
        true no_image image_source image_query news_topic = some r ∧
      r.ok = true ∧ r.dry_run = true) ∧
    (∀ t, no_image = true → news_topic = "" →
      read_tips_from_file fileLines = [t] → t.length ≤ 249 →
      run_daily_tweet today fileLines fetchNews fetchGoogle gen env p1 true
          no_image image_source image_query news_topic =
        some ⟨true, true, t ++ tipHashtags, none, none⟩) := by
  obtain ⟨⟨txt, ntl⟩, hc⟩ :=
    content_step_some today fileLines fetchNews news_topic
  obtain ⟨m, hm⟩ := media_step_some today fileLines fetchGoogle gen env ntl
    no_image image_source image_query news_topic
  have e1 := run_daily_tweet_eq today fileLines fetchNews fetchGoogle gen env
    p1 true no_image image_source image_query news_topic txt ntl m hc hm
  have e2 := run_daily_tweet_eq today fileLines fetchNews fetchGoogle gen env
    p2 true no_image image_source image_query news_topic txt ntl m hc hm
  refine ⟨e1.trans e2.symm, ⟨_, e1, rfl, rfl⟩, ?_⟩
  intro t hni hnt hread hlen
  subst hni
  subst hnt
  have htips : effective_tips fileLines = [t] := by
    unfold effective_tips
    rw [hread, if_neg (by simp)]
  have hsel : selected_tip fileLines today = some t := by
    unfold selected_tip tip_index
    rw [htips, show (([t] : List String).length : Int) = 1 by simp,
      deterministic_index_one]
    rfl
  have hc' : content_step today fileLines fetchNews "" =
      some (build_tweet_text t, none) := by
    unfold content_step
    rw [if_pos (show pystrip "" = "" from rfl)]
    simp [hsel]
  have hm' : media_step today fileLines fetchGoogle gen env none true
      image_source image_query "" = some none := by
    unfold media_step
    rw [if_neg (fun h => h.1 rfl)]
    rfl
  have htxt : build_tweet_text t = t ++ tipHashtags := by
    rw [build_tweet_text_eq, if_neg (by omega)]
  rw [show (⟨true, true, t ++ tipHashtags, none, none⟩ : TweetResult) =
      ⟨true, true, build_tweet_text t, none, none⟩ by rw [htxt]]
  exact run_daily_tweet_eq today fileLines fetchNews fetchGoogle gen env p1
    true true image_source image_query "" (build_tweet_text t) none none
    hc' hm'

theorem claim_C9_witness :
    run_daily_tweet ⟨2024, 1, 1⟩ (some ["hi"]) (fun _ => none)
        (fun _ => false) (fun _ _ _ => none) (fun _ => none)
        (fun _ _ => Except.ok ()) true true "generated" "" "" =
      some ⟨true, true, "hi" ++ tipHashtags, none, none⟩ :=
  (claim_C9 ⟨2024, 1, 1⟩ (some ["hi"]) (fun _ => none) (fun _ => false)
    (fun _ _ _ => none) (fun _ => none) (fun _ _ => Except.ok ())
    (fun _ _ => Except.error "boom") true "generated" "" "").2.2 "hi" rfl rfl
    (by decide) (by decide)

set_option maxRecDepth 8000 in
/-- C9 fails as stated for a tips file whose single tip exceeds the
249-character budget: the dry-run record carries the truncated text,
not the tip plus decoration. -/
theorem claim_C9_cex :
    ∃ r, run_daily_tweet ⟨2024, 1, 1⟩
        (some [String.mk (List.replicate 250 'a')]) (fun _ => none)
        (fun _ => false) (fun _ _ _ => none) (fun _ => none)
        (fun _ _ => Except.ok ()) true true "generated" "" "" = some r ∧
      ¬ r.tweet_text = String.mk (List.replicate 250 'a') ++ tipHashtags := by
  refine ⟨⟨true, true,
    build_tweet_text (String.mk (List.replicate 250 'a')), none, none⟩,
    ?_, ?_⟩
  · decide
  · decide
